import Mathlib

set_option maxRecDepth 10000

/-!
Shallow embedding of the AES-GCM EVP cipher method of wolfEngine
(src/aes_gcm.c).

Buffers are lists of byte values (Nat); C ints are Int, sizes (size_t)
are Nat.  A memcpy into or out of a buffer is modelled by memcpyAt, which
returns none when the copy would run outside either buffer (the
undefined-behaviour branch of the C code).  The wolfSSL AEAD primitive
(wc_AesGcmEncrypt_ex / wc_AesGcmDecrypt) and wc_AesGcmSetExtIV are external
collaborators and are passed to the embedded functions as opaque function
arguments; OPENSSL_realloc success is an explicit boolean argument.
Following the C control flow, each payload function is split into a
"crypt" core (the if/else that performs the cipher operation) and a
wrapper that then unconditionally disposes of the AAD buffer, exactly as
lines 195-198 and 297-301 of the source run after their if/else.
The cases of the we_aes_gcm_ctrl switch that the claims are about are
embedded as one function per ctrl command.
-/

/-- TLS record framing: size of the per-record explicit IV. -/
def EVP_GCM_TLS_EXPLICIT_IV_LEN : Nat := 8

/-- TLS record framing: size of the fixed (implicit) IV part. -/
def EVP_GCM_TLS_FIXED_IV_LEN : Nat := 4

/-- TLS record framing: size of the authentication tag. -/
def EVP_GCM_TLS_TAG_LEN : Nat := 16

/-- Size of the TLS AAD header passed to EVP_CTRL_AEAD_TLS1_AAD. -/
def EVP_AEAD_TLS1_AAD_LEN : Nat := 13

/-- Maximum size of a nonce (aes_gcm.c line 27). -/
def GCM_NONCE_MAX_SZ : Nat := 16

/-- Normal size of a nonce (aes_gcm.c line 31). -/
def GCM_NONCE_MID_SZ : Nat := 12

/-- Session state of the we_AesGcm struct (aes_gcm.c lines 43-67).
The C field aadLen is represented by aad.length; the iv and tag fields are
fixed 16-byte buffers. -/
structure WeAesGcm where
  iv : List Nat
  ivLen : Int
  ivSet : Bool
  tag : List Nat
  tagLen : Int
  aad : List Nat
  enc : Bool
  tls : Bool
deriving DecidableEq

/-- XMEMCPY(dst + off, src, n): overwrite n bytes of dst at offset off with
the first n bytes of src; none when the copy would leave either buffer. -/
def memcpyAt (dst : List Nat) (off : Nat) (src : List Nat) (n : Nat) :
    Option (List Nat) :=
  if n ≤ src.length ∧ off + n ≤ dst.length then
    some (dst.take off ++ src.take n ++ dst.drop (off + n))
  else none

/-- (word32)a - b, for a constant b ≤ 2^32: C unsigned 32-bit subtraction. -/
def word32sub (a b : Nat) : Nat := (a % 2 ^ 32 + 2 ^ 32 - b) % 2 ^ 32

/-- (int) cast of a word32 value. -/
def intOfWord32 (w : Nat) : Int :=
  if w < 2 ^ 31 then (w : Int) else (w : Int) - 2 ^ 32

/-- (int) cast of a size_t value: truncate to 32 bits, then signed. -/
def intOfSizeT (n : Nat) : Int := intOfWord32 (n % 2 ^ 32)

/-- Signature of wc_AesGcmEncrypt_ex as used by aes_gcm.c:
(plaintext, iv, ivLen, tagSz, aad) yields (ciphertext, tag, final nonce
register aes.reg), or none on failure. -/
abbrev EncPrim :=
  List Nat → List Nat → Int → Int → List Nat →
    Option (List Nat × List Nat × List Nat)

/-- Signature of wc_AesGcmDecrypt as used by aes_gcm.c:
(ciphertext, iv, ivLen, tag, tagLen, aad) yields (plaintext, final nonce
register aes.reg), or none on failure (in particular AuthFailure). -/
abbrev DecPrim :=
  List Nat → List Nat → Int → List Nat → Int → List Nat →
    Option (List Nat × List Nat)

/-- Success predicate for wc_AesGcmSetExtIV(aes, iv, ivLen). -/
abbrev SetExtIvPrim := List Nat → Int → Bool

/-- The C locals encLen / decLen of we_aes_gcm_tls_cipher (lines 137, 165):
(word32)len - EVP_GCM_TLS_EXPLICIT_IV_LEN - EVP_GCM_TLS_TAG_LEN. -/
def tlsPayloadLen (len : Nat) : Nat :=
  word32sub len (EVP_GCM_TLS_EXPLICIT_IV_LEN + EVP_GCM_TLS_TAG_LEN)

/-- The crypto part of we_aes_gcm_tls_cipher (aes_gcm.c lines 134-193),
i.e. everything before the unconditional AAD disposal of lines 195-198.
out0 = none models a NULL output pointer; the returned triple is
(ret, session state, contents of the output buffer).  ossl3 selects the
OPENSSL_VERSION_NUMBER >= 0x30000000L branch for the decrypt return
value. -/
def we_aes_gcm_tls_crypt (encPrim : EncPrim) (decPrim : DecPrim)
    (ossl3 : Bool) (aes : WeAesGcm) (out0 : Option (List Nat))
    (inp : List Nat) (len : Nat) :
    Option (Int × WeAesGcm × Option (List Nat)) :=
  if aes.enc then
    -- lines 135-162
    if len = 0 then
      -- crypto skipped; ret = (int)len = 0
      some (intOfSizeT len, aes, out0)
    else
      out0.bind fun out =>
        -- line 141: copy the explicit part of the IV into out
        (memcpyAt out 0 (aes.iv.drop EVP_GCM_TLS_FIXED_IV_LEN)
            EVP_GCM_TLS_EXPLICIT_IV_LEN).bind fun out1 =>
          if EVP_GCM_TLS_EXPLICIT_IV_LEN + tlsPayloadLen len ≤ len ∧
              len ≤ inp.length then
            -- lines 147-153: encrypt all but the explicit IV; tag at end.
            -- ctr = (ciphertext, tag, final nonce register)
            (encPrim
                ((inp.drop EVP_GCM_TLS_EXPLICIT_IV_LEN).take
                  (tlsPayloadLen len))
                aes.iv aes.ivLen (EVP_GCM_TLS_TAG_LEN : Int) aes.aad).elim
              -- rc != 0: ret = 0
              (some (0, aes, some out1))
              (fun ctr =>
                (memcpyAt out1 EVP_GCM_TLS_EXPLICIT_IV_LEN ctr.1
                    (tlsPayloadLen len)).bind fun out2 =>
                  (memcpyAt out2 (len - EVP_GCM_TLS_TAG_LEN) ctr.2.1
                      EVP_GCM_TLS_TAG_LEN).bind fun out3 =>
                    some (intOfSizeT len, aes, some out3))
          else none
  else
    -- lines 163-193
    if len = 0 then
      some ((if ossl3 then intOfSizeT len
             else intOfWord32 (tlsPayloadLen len)),
            aes, out0)
    else
      out0.bind fun out =>
        if EVP_GCM_TLS_EXPLICIT_IV_LEN ≤ len ∧ len ≤ inp.length then
          -- line 169: copy the explicit part of the IV from the input
          (memcpyAt aes.iv EVP_GCM_TLS_FIXED_IV_LEN inp
              EVP_GCM_TLS_EXPLICIT_IV_LEN).bind fun iv2 =>
            if EVP_GCM_TLS_EXPLICIT_IV_LEN + tlsPayloadLen len ≤ len then
              -- lines 175-180: decrypt all but explicit IV; tag at input end.
              -- ptr = (plaintext, final nonce register)
              (decPrim
                  ((inp.drop EVP_GCM_TLS_EXPLICIT_IV_LEN).take
                    (tlsPayloadLen len))
                  iv2 aes.ivLen
                  ((inp.drop (len - EVP_GCM_TLS_TAG_LEN)).take
                    EVP_GCM_TLS_TAG_LEN)
                  (EVP_GCM_TLS_TAG_LEN : Int) aes.aad).elim
                -- rc != 0 (AuthFailure): ret = 0
                (some (0, { aes with iv := iv2 }, some out))
                (fun ptr =>
                  (memcpyAt out EVP_GCM_TLS_EXPLICIT_IV_LEN ptr.1
                      (tlsPayloadLen len)).bind fun out2 =>
                    some ((if ossl3 then intOfSizeT len
                           else intOfWord32 (tlsPayloadLen len)),
                          { aes with iv := iv2 }, some out2))
            else none
        else none

/-- we_aes_gcm_tls_cipher (aes_gcm.c lines 128-201): the crypto part,
followed by lines 195-198 which dispose of any AAD unconditionally. -/
def we_aes_gcm_tls_cipher (encPrim : EncPrim) (decPrim : DecPrim)
    (ossl3 : Bool) (aes : WeAesGcm) (out0 : Option (List Nat))
    (inp : List Nat) (len : Nat) :
    Option (Int × WeAesGcm × Option (List Nat)) :=
  (we_aes_gcm_tls_crypt encPrim decPrim ossl3 aes out0 inp len).map
    (fun r => (r.1, { r.2.1 with aad := [] }, r.2.2))

/-- The cipher part of the one-shot payload branch of we_aes_gcm_cipher
(aes_gcm.c lines 255-295), i.e. everything before the unconditional AAD
disposal and ret = len of lines 297-301.  Returns the final session state
(aad field untouched) and the final output buffer. -/
def we_aes_gcm_oneshot_crypt (encPrim : EncPrim) (decPrim : DecPrim)
    (setExtIvOk : SetExtIvPrim) (aes : WeAesGcm) (out : List Nat)
    (inp : List Nat) (len : Nat) : Option (WeAesGcm × List Nat) :=
  if aes.enc then
    -- lines 256-280
    if aes.ivSet = false ∧ setExtIvOk aes.iv aes.ivLen = false then
      -- wc_AesGcmSetExtIV failed: ret = 0, encrypt and IV caching skipped
      some (aes, out)
    else
      -- line 267: tag always full size on calculation (tagLen := 16).
      -- ctr = (ciphertext, tag, final nonce register)
      (encPrim (inp.take len) aes.iv aes.ivLen
          (EVP_GCM_TLS_TAG_LEN : Int) aes.aad).elim
        -- rc != 0: ret = 0, IV caching skipped
        (some ({ aes with tagLen := (EVP_GCM_TLS_TAG_LEN : Int) }, out))
        (fun ctr =>
          (memcpyAt out 0 ctr.1 len).bind fun out1 =>
            (memcpyAt aes.tag 0 ctr.2.1 EVP_GCM_TLS_TAG_LEN).bind fun tag1 =>
              -- line 279: cache nonce/IV from aes.reg
              (memcpyAt aes.iv 0 ctr.2.2 aes.ivLen.toNat).bind fun iv1 =>
                some ({ aes with iv := iv1, tag := tag1,
                                 tagLen := (EVP_GCM_TLS_TAG_LEN : Int) },
                      out1))
  else
    -- lines 282-295.  ptr = (plaintext, final nonce register)
    (decPrim (inp.take len) aes.iv aes.ivLen aes.tag aes.tagLen
        aes.aad).elim
      -- rc != 0 (AuthFailure): ret = 0, IV caching skipped
      (some (aes, out))
      (fun ptr =>
        (memcpyAt out 0 ptr.1 len).bind fun out1 =>
          (memcpyAt aes.iv 0 ptr.2 aes.ivLen.toNat).bind fun iv1 =>
            some ({ aes with iv := iv1 }, out1))

/-- we_aes_gcm_cipher (aes_gcm.c lines 217-307).  out0 = none models a NULL
output pointer (AAD-only call); allocOk models OPENSSL_realloc success.
Returns (ret, final session state, final output buffer contents), or none
on an out-of-bounds buffer access. -/
def we_aes_gcm_cipher (encPrim : EncPrim) (decPrim : DecPrim)
    (setExtIvOk : SetExtIvPrim) (allocOk : Bool) (ossl3 : Bool)
    (aes : WeAesGcm) (out0 : Option (List Nat)) (inp : List Nat)
    (len : Nat) : Option (Int × WeAesGcm × Option (List Nat)) :=
  if aes.tls then
    -- line 235
    we_aes_gcm_tls_cipher encPrim decPrim ossl3 aes out0 inp len
  else
    match out0 with
    | none =>
      -- lines 237-251: resize stored AAD and append new data.
      -- NOTE line 249: ret = 0 on the success path as well.
      if allocOk then
        if len ≤ inp.length then
          some (0, { aes with aad := aes.aad ++ inp.take len }, none)
        else none
      else some (0, aes, none)
    | some out =>
      if len = 0 then
        -- lines 252-254: ret = 0, nothing else happens
        some (0, aes, some out)
      else
        if len ≤ inp.length then
          -- lines 297-301: dispose of any AAD; then ret = len
          -- unconditionally (overwriting any ret = 0 from a failure)
          (we_aes_gcm_oneshot_crypt encPrim decPrim setExtIvOk aes out
              inp len).map
            (fun su => (intOfSizeT len, { su.1 with aad := [] }, some su.2))
        else none

/-- we_aes_gcm_ctrl, case EVP_CTRL_AEAD_SET_IVLEN (lines 343-356). -/
def we_aes_gcm_ctrl_set_ivlen (aes : WeAesGcm) (arg : Int) :
    Int × WeAesGcm :=
  if arg ≤ 0 ∨ arg > (GCM_NONCE_MAX_SZ : Int) then (0, aes)
  else (1, { aes with ivLen := arg })

/-- Index sequence of the EVP_CTRL_GCM_IV_GEN increment loop (line 411):
i = ivLen - 1 down to ivLen - 8. -/
def incIndices (ivLen : Int) : List Int :=
  (List.range 8).map (fun k => ivLen - 1 - (k : Int))

/-- The body of the EVP_CTRL_GCM_IV_GEN loop (lines 411-415): increment the
byte at each index in turn, stopping at the first byte that does not wrap
to 0; none when an index is outside the iv buffer. -/
def gcmIncBytes : List Nat → List Int → Option (List Nat)
  | iv, [] => some iv
  | iv, i :: rest =>
    if 0 ≤ i ∧ i.toNat < iv.length then
      if (iv.getD i.toNat 0 + 1) % 256 ≠ 0 then
        some (iv.set i.toNat ((iv.getD i.toNat 0 + 1) % 256))
      else gcmIncBytes (iv.set i.toNat ((iv.getD i.toNat 0 + 1) % 256)) rest
    else none

/-- we_aes_gcm_ctrl, case EVP_CTRL_GCM_IV_GEN (lines 398-417): ptr is the
seed copied into the IV before the counter increment. -/
def we_aes_gcm_ctrl_iv_gen (aes : WeAesGcm) (arg : Int) (ptr : List Nat) :
    Option (Int × WeAesGcm) :=
  if arg ≤ 0 ∨ arg > (GCM_NONCE_MAX_SZ : Int) then some (0, aes)
  else
    match memcpyAt aes.iv 0 ptr arg.toNat with
    | none => none
    | some iv1 =>
      match gcmIncBytes iv1 (incIndices aes.ivLen) with
      | none => none
      | some iv2 => some (1, { aes with iv := iv2 })

/-- we_aes_gcm_ctrl, case EVP_CTRL_AEAD_TLS1_AAD (lines 455-505).  The
OPENSSL_malloc of the 13-byte AAD buffer is modelled as succeeding. -/
def we_aes_gcm_ctrl_tls1_aad (aes : WeAesGcm) (arg : Int) (ptr : List Nat) :
    Option (Int × WeAesGcm) :=
  if arg ≠ (EVP_AEAD_TLS1_AAD_LEN : Int) then some (0, aes)
  else if EVP_AEAD_TLS1_AAD_LEN ≤ ptr.length then
    -- lines 469-479: free old aad, allocate, copy the header in
    let aad1 := ptr.take EVP_AEAD_TLS1_AAD_LEN
    -- line 480: len = (aad[arg - 2] << 8) | aad[arg - 1]
    let len0 : Nat := aad1.getD 11 0 * 256 + aad1.getD 12 0
    if len0 < EVP_GCM_TLS_EXPLICIT_IV_LEN then
      some (0, { aes with aad := aad1 })
    else
      let len1 := len0 - EVP_GCM_TLS_EXPLICIT_IV_LEN
      if aes.enc = false ∧ len1 < EVP_GCM_TLS_TAG_LEN then
        some (0, { aes with aad := aad1 })
      else
        let len2 := if aes.enc then len1 else len1 - EVP_GCM_TLS_TAG_LEN
        -- lines 499-500: write len back (unsigned char truncation)
        let aad2 := (aad1.set 11 (len2 / 256 % 256)).set 12 (len2 % 256)
        some ((EVP_GCM_TLS_TAG_LEN : Int),
              { aes with aad := aad2, tls := true })
  else none

/-- Concrete stand-in for wc_AesGcmEncrypt_ex, used by witnesses: length
preserving, tag of the requested size. -/
def dummyEncPrim : EncPrim := fun pt _iv _ivLen tagSz _aad =>
  some (pt.map (fun b => (b + 1) % 256),
        List.replicate tagSz.toNat 0, List.replicate 16 2)

/-- Concrete stand-in for wc_AesGcmDecrypt, used by witnesses. -/
def dummyDecPrim : DecPrim := fun ct _iv _ivLen _tag _tagLen _aad =>
  some (ct.map (fun b => (b + 255) % 256), List.replicate 16 2)

/-- Stand-in for wc_AesGcmDecrypt that always reports AuthFailure. -/
def failDecPrim : DecPrim := fun _ct _iv _ivLen _tag _tagLen _aad => none

/-- Stand-in for a wc_AesGcmSetExtIV that always succeeds. -/
def dummySetExtIv : SetExtIvPrim := fun _iv _ivLen => true

/-- Big-endian digit i (i = 0 most significant) of an 8-byte counter. -/
def beDigit (c i : Nat) : Nat := c / 256 ^ (7 - i) % 256

/-- IV whose low 8 bytes (positions 4..11, the counter of a 12-byte nonce)
hold the 64-bit big-endian value c and whose other bytes are zero. -/
def mkIv (c : Nat) : List Nat :=
  [0, 0, 0, 0,
   beDigit c 0, beDigit c 1, beDigit c 2, beDigit c 3,
   beDigit c 4, beDigit c 5, beDigit c 6, beDigit c 7,
   0, 0, 0, 0]

/-- Session with a 12-byte IV whose low-8-byte counter is c. -/
def mkSt (c : Nat) : WeAesGcm :=
  { iv := mkIv c, ivLen := 12, ivSet := false,
    tag := List.replicate 16 0, tagLen := 0, aad := [],
    enc := true, tls := false }

/-- The low-8-byte big-endian counter of a 12-byte IV (bytes 4..11). -/
def ivCtr (iv : List Nat) : Nat :=
  iv.getD 4 0 * 72057594037927936 + iv.getD 5 0 * 281474976710656 +
  iv.getD 6 0 * 1099511627776 + iv.getD 7 0 * 4294967296 +
  iv.getD 8 0 * 16777216 + iv.getD 9 0 * 65536 +
  iv.getD 10 0 * 256 + iv.getD 11 0

/-- One EVP_CTRL_GCM_IV_GEN call with the all-zero 8-byte seed
(the scenario of the nonce-monotonicity property). -/
def ivGenZeroStep (st : WeAesGcm) : WeAesGcm :=
  match we_aes_gcm_ctrl_iv_gen st 8 [0, 0, 0, 0, 0, 0, 0, 0] with
  | some r => r.2
  | none => st

/-- The record length encoded big-endian in the last two bytes of a
13-byte TLS AAD header. -/
def hdrLen (l : List Nat) : Nat := l.getD 11 0 * 256 + l.getD 12 0

/-- An AAD-only call (output buffer NULL, successful realloc), returning
the resulting session state. -/
def pushAad (eP : EncPrim) (dP : DecPrim) (sI : SetExtIvPrim) (o3 : Bool)
    (st : WeAesGcm) (bytes : List Nat) : Option WeAesGcm :=
  (we_aes_gcm_cipher eP dP sI true o3 st none bytes bytes.length).map
    (fun r => r.2.1)

/-! ## Theorems -/

/-- Claim C1 (code bug): in one-shot decrypt mode, when the AEAD primitive
reports an authentication failure (returns none), we_aes_gcm_cipher still
returns len (the documented success value, here 16) because line 301
unconditionally overwrites ret; the claim and the function documentation say
a failing payload call returns 0.  The output buffer is left unchanged. -/
theorem claim_C1_auth_fail_returns_len :
    we_aes_gcm_cipher dummyEncPrim failDecPrim dummySetExtIv true false
      { mkSt 0 with enc := false, aad := [1, 2], tagLen := 16 }
      (some (List.replicate 16 9)) (List.replicate 16 7) 16
      = some (16, { mkSt 0 with enc := false, tagLen := 16, aad := [] },
              some (List.replicate 16 9))
    ∧ (16 : Int) ≠ 0 := by decide

/-- Claim C8 (code bug): an AAD-only call appends the input bytes, but
returns 0 on success (line 249) — not the input length the documentation
promises — and also returns 0 when OPENSSL_realloc fails, so the error is
not distinguishable from success by the return value. -/
theorem claim_C8_push_returns_zero :
    we_aes_gcm_cipher dummyEncPrim dummyDecPrim dummySetExtIv true false
      (mkSt 0) none [97, 98] 2
      = some (0, { mkSt 0 with aad := [97, 98] }, none)
    ∧ we_aes_gcm_cipher dummyEncPrim dummyDecPrim dummySetExtIv false false
      (mkSt 0) none [97, 98] 2
      = some (0, mkSt 0, none)
    ∧ (0 : Int) ≠ 2 := by decide

/-- Claim C6, counterexample: a zero-length one-shot payload call does not
clear the pending AAD: with aad = [7, 8] before the call, the session still
has aad = [7, 8] ≠ [] afterwards. -/
theorem claim_C6_counterexample :
    we_aes_gcm_cipher dummyEncPrim dummyDecPrim dummySetExtIv true false
      { mkSt 0 with aad := [7, 8] } (some []) [] 0
      = some (0, { mkSt 0 with aad := [7, 8] }, some [])
    ∧ ({ mkSt 0 with aad := [7, 8] } : WeAesGcm).aad ≠ [] := by decide

/-- Claim C6 as amended: in one-shot mode a zero-length payload call (output
buffer present) returns 0, produces no output, and leaves the session state
— including any pending accumulated AAD — unchanged. -/
theorem claim_C6_zero_len (eP : EncPrim) (dP : DecPrim) (sI : SetExtIvPrim)
    (aOk o3 : Bool) (st : WeAesGcm) (out : List Nat) (inp : List Nat)
    (h : st.tls = false) :
    we_aes_gcm_cipher eP dP sI aOk o3 st (some out) inp 0
      = some (0, st, some out) := by
  simp [we_aes_gcm_cipher, h]

/-- Claim C6, witness for the amended theorem. -/
theorem claim_C6_witness :
    ((mkSt 0).tls = false) ∧
    we_aes_gcm_cipher dummyEncPrim dummyDecPrim dummySetExtIv true false
      (mkSt 0) (some [1]) [] 0 = some (0, mkSt 0, some [1]) :=
  ⟨rfl, claim_C6_zero_len dummyEncPrim dummyDecPrim dummySetExtIv true false
    (mkSt 0) [1] [] rfl⟩

/-- Claim C5, counterexample: a zero-length one-shot payload call (output
buffer present, so a payload call) does not release the AAD buffer: aad is
still [5] ≠ [] afterwards. -/
theorem claim_C5_counterexample :
    we_aes_gcm_cipher dummyEncPrim dummyDecPrim dummySetExtIv true false
      { mkSt 0 with aad := [5] } (some [3]) [3] 0
      = some (0, { mkSt 0 with aad := [5] }, some [3])
    ∧ ({ mkSt 0 with aad := [5] } : WeAesGcm).aad ≠ [] := by decide

/-- Every result of we_aes_gcm_tls_cipher has an empty AAD buffer. -/
lemma tls_cipher_aad_nil (eP : EncPrim) (dP : DecPrim) (o3 : Bool)
    (aes : WeAesGcm) (out0 : Option (List Nat)) (inp : List Nat) (len : Nat)
    (r : Int × WeAesGcm × Option (List Nat))
    (h : we_aes_gcm_tls_cipher eP dP o3 aes out0 inp len = some r) :
    r.2.1.aad = [] := by
  unfold we_aes_gcm_tls_cipher at h
  rcases Option.map_eq_some'.mp h with ⟨a, -, ha⟩
  rw [← ha]

/-- Claim C5 as amended: after every payload call that performs a cipher
operation — any TLS-record call, or a one-shot call with an output buffer
and nonzero length — the session's AAD buffer is empty, regardless of
whether the cipher operation succeeded or failed.  (A zero-length one-shot
payload call, by contrast, leaves the AAD in place.) -/
theorem claim_C5_aad_cleared (eP : EncPrim) (dP : DecPrim)
    (sI : SetExtIvPrim) (aOk o3 : Bool) (st : WeAesGcm)
    (out0 : Option (List Nat)) (inp : List Nat) (len : Nat)
    (r : Int × WeAesGcm × Option (List Nat))
    (hcall : st.tls = true ∨ (out0 ≠ none ∧ 0 < len))
    (h : we_aes_gcm_cipher eP dP sI aOk o3 st out0 inp len = some r) :
    r.2.1.aad = [] := by
  unfold we_aes_gcm_cipher at h
  by_cases htls : st.tls = true
  · rw [if_pos htls] at h
    exact tls_cipher_aad_nil eP dP o3 st out0 inp len r h
  · rw [if_neg htls] at h
    rcases hcall with h1 | ⟨hout, hlen⟩
    · exact absurd h1 htls
    · cases out0 with
      | none => exact absurd rfl hout
      | some out =>
        simp only [if_neg (by omega : ¬ len = 0)] at h
        split at h
        · rcases Option.map_eq_some'.mp h with ⟨a, -, ha⟩
          rw [← ha]
        · exact Option.noConfusion h

/-- Claim C5, witness for the amended theorem: a TLS-record call. -/
theorem claim_C5_witness :
    ({ mkSt 0 with tls := true } : WeAesGcm).tls = true ∧
    we_aes_gcm_cipher dummyEncPrim dummyDecPrim dummySetExtIv true false
      { mkSt 0 with tls := true, aad := [4] } none [] 0
      = some (0, { mkSt 0 with tls := true, aad := [] }, none) ∧
    ({ mkSt 0 with tls := true, aad := [] } : WeAesGcm).aad = [] :=
  ⟨rfl, by decide,
   claim_C5_aad_cleared dummyEncPrim dummyDecPrim dummySetExtIv true false
     { mkSt 0 with tls := true, aad := [4] } none [] 0
     (0, { mkSt 0 with tls := true, aad := [] }, none)
     (Or.inl rfl) (by decide)⟩

/-- An AAD-only call on a non-TLS session appends the bytes to the AAD. -/
lemma pushAad_eq (eP : EncPrim) (dP : DecPrim) (sI : SetExtIvPrim)
    (o3 : Bool) (st : WeAesGcm) (bytes : List Nat) (h : st.tls = false) :
    pushAad eP dP sI o3 st bytes = some { st with aad := st.aad ++ bytes } := by
  simp [pushAad, we_aes_gcm_cipher, h]

/-- Claim C7: three AAD-only calls pushing "ab", "cd", "ef" followed by a
payload call produce exactly the same result (return value, session state
with tag, output bytes) as one AAD-only call pushing "abcdef" followed by
the same payload call. -/
theorem claim_C7_aad_accumulation (eP : EncPrim) (dP : DecPrim)
    (sI : SetExtIvPrim) (aOk o3 : Bool) (st : WeAesGcm)
    (out0 inp : List Nat) (len : Nat) (h : st.tls = false) :
    ((pushAad eP dP sI o3 st [97, 98]).bind fun s1 =>
     (pushAad eP dP sI o3 s1 [99, 100]).bind fun s2 =>
     (pushAad eP dP sI o3 s2 [101, 102]).bind fun s3 =>
       we_aes_gcm_cipher eP dP sI aOk o3 s3 (some out0) inp len)
    = ((pushAad eP dP sI o3 st [97, 98, 99, 100, 101, 102]).bind fun s =>
       we_aes_gcm_cipher eP dP sI aOk o3 s (some out0) inp len) := by
  simp [pushAad_eq, h, List.append_assoc]

/-- Claim C7, witness: concrete instantiation of the accumulation law. -/
theorem claim_C7_witness :
    ((mkSt 0).tls = false) ∧
    ((pushAad dummyEncPrim dummyDecPrim dummySetExtIv false (mkSt 0)
        [97, 98]).bind fun s1 =>
     (pushAad dummyEncPrim dummyDecPrim dummySetExtIv false s1
        [99, 100]).bind fun s2 =>
     (pushAad dummyEncPrim dummyDecPrim dummySetExtIv false s2
        [101, 102]).bind fun s3 =>
       we_aes_gcm_cipher dummyEncPrim dummyDecPrim dummySetExtIv true false
         s3 (some [0, 0, 0, 0]) [9, 9, 9, 9] 4)
    = ((pushAad dummyEncPrim dummyDecPrim dummySetExtIv false (mkSt 0)
        [97, 98, 99, 100, 101, 102]).bind fun s =>
       we_aes_gcm_cipher dummyEncPrim dummyDecPrim dummySetExtIv true false
         s (some [0, 0, 0, 0]) [9, 9, 9, 9] 4) :=
  ⟨rfl, claim_C7_aad_accumulation dummyEncPrim dummyDecPrim dummySetExtIv
    true false (mkSt 0) [0, 0, 0, 0] [9, 9, 9, 9] 4 rfl⟩

/-- Claim C10: when a SetTlsAad (EVP_CTRL_AEAD_TLS1_AAD) call with a
13-byte header fails because the encoded record length is too small, the
previously accumulated AAD has already been freed and replaced by the raw,
un-rewritten header (aad = the 13 header bytes, so aad_len = 13), and the
mode flag tls is left unchanged (not switched to TlsRecord). -/
theorem claim_C10_tls_aad_partial (st : WeAesGcm) (hdr : List Nat)
    (h13 : hdr.length = 13)
    (hfail : hdrLen hdr < 8 ∨ (st.enc = false ∧ hdrLen hdr < 24)) :
    we_aes_gcm_ctrl_tls1_aad st 13 hdr = some (0, { st with aad := hdr }) ∧
    ({ st with aad := hdr } : WeAesGcm).aad.length = 13 ∧
    ({ st with aad := hdr } : WeAesGcm).tls = st.tls := by
  have htake : hdr.take EVP_AEAD_TLS1_AAD_LEN = hdr :=
    List.take_of_length_le (le_of_eq h13)
  have hargeq : ¬ ((13 : Int) ≠ (EVP_AEAD_TLS1_AAD_LEN : Int)) := by
    simp [EVP_AEAD_TLS1_AAD_LEN]
  have hptr : EVP_AEAD_TLS1_AAD_LEN ≤ hdr.length := by
    simp [EVP_AEAD_TLS1_AAD_LEN, h13]
  refine ⟨?_, by simpa using h13, rfl⟩
  simp only [we_aes_gcm_ctrl_tls1_aad, htake]
  rw [if_neg hargeq, if_pos hptr]
  by_cases h8 : hdrLen hdr < 8
  · have hc : hdr.getD 11 0 * 256 + hdr.getD 12 0
        < EVP_GCM_TLS_EXPLICIT_IV_LEN := by
      unfold hdrLen at h8
      simp only [EVP_GCM_TLS_EXPLICIT_IV_LEN]
      omega
    rw [if_pos hc]
  · rcases hfail with hL | ⟨henc, hL⟩
    · exact absurd hL h8
    · have hc1 : ¬ (hdr.getD 11 0 * 256 + hdr.getD 12 0
          < EVP_GCM_TLS_EXPLICIT_IV_LEN) := by
        unfold hdrLen at h8
        simp only [EVP_GCM_TLS_EXPLICIT_IV_LEN]
        omega
      have hc2 : st.enc = false ∧
          hdr.getD 11 0 * 256 + hdr.getD 12 0 - EVP_GCM_TLS_EXPLICIT_IV_LEN
            < EVP_GCM_TLS_TAG_LEN := by
        refine ⟨henc, ?_⟩
        unfold hdrLen at hL
        simp only [EVP_GCM_TLS_EXPLICIT_IV_LEN, EVP_GCM_TLS_TAG_LEN]
        omega
      rw [if_neg hc1, if_pos hc2]

/-- Claim C10, witness: decrypt session with pending AAD [9], header whose
length field encodes 20 (≥ 8 but too small once IV and tag are removed). -/
theorem claim_C10_witness :
    we_aes_gcm_ctrl_tls1_aad { mkSt 0 with enc := false, aad := [9] } 13
      [0, 0, 0, 0, 0, 0, 0, 0, 22, 3, 3, 0, 20]
      = some (0, { mkSt 0 with enc := false, aad := [0, 0, 0, 0, 0, 0, 0, 0, 22, 3, 3, 0, 20] }) ∧
    ({ mkSt 0 with enc := false, aad := [0, 0, 0, 0, 0, 0, 0, 0, 22, 3, 3, 0, 20] } : WeAesGcm).aad.length = 13 ∧
    ({ mkSt 0 with enc := false, aad := [0, 0, 0, 0, 0, 0, 0, 0, 22, 3, 3, 0, 20] } : WeAesGcm).tls
      = ({ mkSt 0 with enc := false, aad := [9] } : WeAesGcm).tls :=
  claim_C10_tls_aad_partial { mkSt 0 with enc := false, aad := [9] }
    [0, 0, 0, 0, 0, 0, 0, 0, 22, 3, 3, 0, 20] (by decide)
    (Or.inr ⟨rfl, by decide⟩)

/-- Claim C9: SetIvLen accepts every length in [1, 16]; and for every
session whose configured iv_len is in [1, 7] there is a valid IvGen call
(arg = 16, all-0xFF seed) on which the counter-increment loop runs past
index 0 to index -1, i.e. outside the IV buffer: the embedding returns the
out-of-bounds branch none. -/
theorem claim_C9_ivgen_oob (L : Int) (h1 : 1 ≤ L) (h7 : L ≤ 7)
    (st : WeAesGcm) (hiv : st.iv.length = 16) :
    we_aes_gcm_ctrl_set_ivlen st L = (1, { st with ivLen := L }) ∧
    we_aes_gcm_ctrl_iv_gen { st with ivLen := L } 16
      (List.replicate 16 255) = none := by
  constructor
  · rw [we_aes_gcm_ctrl_set_ivlen,
        if_neg (by simp only [GCM_NONCE_MAX_SZ]; omega)]
  · have hcopy : memcpyAt st.iv 0 (List.replicate 16 255) (Int.toNat 16)
        = some (List.replicate 16 255) := by
      rw [memcpyAt, if_pos (by simp [hiv])]
      simp [List.drop_eq_nil_iff, hiv]
    have hinc : gcmIncBytes [255, 255, 255, 255, 255, 255, 255, 255, 255, 255, 255, 255, 255, 255, 255, 255]
        (incIndices L) = none := by
      interval_cases L <;> decide
    rw [we_aes_gcm_ctrl_iv_gen,
        if_neg (by simp only [GCM_NONCE_MAX_SZ]; omega)]
    rw [hcopy]
    simp [hinc]

/-- Claim C9, witness: iv_len = 1. -/
theorem claim_C9_witness :
    we_aes_gcm_ctrl_set_ivlen (mkSt 0) 1 = (1, { mkSt 0 with ivLen := 1 }) ∧
    we_aes_gcm_ctrl_iv_gen { mkSt 0 with ivLen := 1 } 16
      (List.replicate 16 255) = none :=
  claim_C9_ivgen_oob 1 (by decide) (by decide) (mkSt 0) (by decide)

/-- Claim C3: SetTlsAad (EVP_CTRL_AEAD_TLS1_AAD) with a 13-byte header
encoding record length L fails (returns 0) when the header length is not
13, when L < explicit-IV size (8), or — for decrypt sessions — when
L - 8 < tag size (16); otherwise it stores the header as the session AAD
with the trailing length field rewritten to L - 8 (additionally - 16 for
decrypt), switches the session to TLS-record mode, and returns the tag
size 16. -/
theorem claim_C3_set_tls_aad (st : WeAesGcm) (hdr : List Nat) (arg : Int)
    (h13 : hdr.length = 13) (hB : ∀ b ∈ hdr, b < 256) :
    (arg ≠ 13 → we_aes_gcm_ctrl_tls1_aad st arg hdr = some (0, st)) ∧
    (hdrLen hdr < 8 →
      ∃ st2, we_aes_gcm_ctrl_tls1_aad st 13 hdr = some (0, st2)) ∧
    (st.enc = false → 8 ≤ hdrLen hdr → hdrLen hdr < 24 →
      ∃ st2, we_aes_gcm_ctrl_tls1_aad st 13 hdr = some (0, st2)) ∧
    (8 ≤ hdrLen hdr → (st.enc = true ∨ 24 ≤ hdrLen hdr) →
      ∃ aad2,
        we_aes_gcm_ctrl_tls1_aad st 13 hdr
          = some (16, { st with aad := aad2, tls := true }) ∧
        aad2.length = 13 ∧
        (∀ k, k < 11 → aad2.getD k 0 = hdr.getD k 0) ∧
        hdrLen aad2
          = hdrLen hdr - 8 - (if st.enc = true then 0 else 16)) := by
  have htake : hdr.take EVP_AEAD_TLS1_AAD_LEN = hdr :=
    List.take_of_length_le (le_of_eq h13)
  have hargeq : ¬ ((13 : Int) ≠ (EVP_AEAD_TLS1_AAD_LEN : Int)) := by
    simp [EVP_AEAD_TLS1_AAD_LEN]
  have hptr : EVP_AEAD_TLS1_AAD_LEN ≤ hdr.length := by
    simp [EVP_AEAD_TLS1_AAD_LEN, h13]
  have h11lt : 11 < hdr.length := by omega
  have h12lt : 12 < hdr.length := by omega
  have hb11 : hdr.getD 11 0 < 256 := by
    rw [List.getD_eq_getElem?_getD, List.getElem?_eq_getElem h11lt,
        Option.getD_some]
    exact hB _ (List.getElem_mem h11lt)
  have hb12 : hdr.getD 12 0 < 256 := by
    rw [List.getD_eq_getElem?_getD, List.getElem?_eq_getElem h12lt,
        Option.getD_some]
    exact hB _ (List.getElem_mem h12lt)
  refine ⟨?_, ?_, ?_, ?_⟩
  · intro ha
    rw [we_aes_gcm_ctrl_tls1_aad,
        if_pos (by simpa [EVP_AEAD_TLS1_AAD_LEN] using ha)]
  · intro hL
    refine ⟨{ st with aad := hdr }, ?_⟩
    simp only [we_aes_gcm_ctrl_tls1_aad, htake]
    rw [if_neg hargeq, if_pos hptr]
    have hc : hdr.getD 11 0 * 256 + hdr.getD 12 0
        < EVP_GCM_TLS_EXPLICIT_IV_LEN := by
      unfold hdrLen at hL
      simp only [EVP_GCM_TLS_EXPLICIT_IV_LEN]
      omega
    rw [if_pos hc]
  · intro henc hL8 hL24
    refine ⟨{ st with aad := hdr }, ?_⟩
    simp only [we_aes_gcm_ctrl_tls1_aad, htake]
    rw [if_neg hargeq, if_pos hptr]
    have hc1 : ¬ (hdr.getD 11 0 * 256 + hdr.getD 12 0
        < EVP_GCM_TLS_EXPLICIT_IV_LEN) := by
      unfold hdrLen at hL8
      simp only [EVP_GCM_TLS_EXPLICIT_IV_LEN]
      omega
    have hc2 : st.enc = false ∧
        hdr.getD 11 0 * 256 + hdr.getD 12 0 - EVP_GCM_TLS_EXPLICIT_IV_LEN
          < EVP_GCM_TLS_TAG_LEN := by
      refine ⟨henc, ?_⟩
      unfold hdrLen at hL24
      simp only [EVP_GCM_TLS_EXPLICIT_IV_LEN, EVP_GCM_TLS_TAG_LEN]
      omega
    rw [if_neg hc1, if_pos hc2]
  · intro hL8 hcase
    have hc1 : ¬ (hdr.getD 11 0 * 256 + hdr.getD 12 0
        < EVP_GCM_TLS_EXPLICIT_IV_LEN) := by
      unfold hdrLen at hL8
      simp only [EVP_GCM_TLS_EXPLICIT_IV_LEN]
      omega
    have hc2 : ¬ (st.enc = false ∧
        hdr.getD 11 0 * 256 + hdr.getD 12 0 - EVP_GCM_TLS_EXPLICIT_IV_LEN
          < EVP_GCM_TLS_TAG_LEN) := by
      rcases hcase with henc | hL24
      · simp [henc]
      · rintro ⟨-, hbad⟩
        unfold hdrLen at hL24
        simp only [EVP_GCM_TLS_EXPLICIT_IV_LEN, EVP_GCM_TLS_TAG_LEN] at hbad
        omega
    have hk12 : ∀ k : Nat, k < 11 → (12 : Nat) ≠ k := by omega
    have hk11 : ∀ k : Nat, k < 11 → (11 : Nat) ≠ k := by omega
    have e12 : ∀ x y : Nat, ((hdr.set 11 x).set 12 y)[12]?.getD 0 = y := by
      intro x y
      rw [List.getElem?_set_self (show 12 < (hdr.set 11 x).length by
            simp [h13])]
      rfl
    have e11 : ∀ x y : Nat, ((hdr.set 11 x).set 12 y)[11]?.getD 0 = x := by
      intro x y
      rw [List.getElem?_set_ne (show (12 : Nat) ≠ 11 by omega),
          List.getElem?_set_self (show 11 < hdr.length by omega)]
      rfl
    have hb11q : hdr[11]?.getD 0 < 256 := by
      rw [← List.getD_eq_getElem?_getD]; exact hb11
    have hb12q : hdr[12]?.getD 0 < 256 := by
      rw [← List.getD_eq_getElem?_getD]; exact hb12
    by_cases henc : st.enc = true
    · simp only [we_aes_gcm_ctrl_tls1_aad, htake, if_neg hargeq,
        if_pos hptr, if_neg hc1, if_neg hc2, if_pos henc]
      refine ⟨_, rfl, by simp [h13], ?_, ?_⟩
      · intro k hk
        simp [List.getD_eq_getElem?_getD,
          List.getElem?_set_ne (hk12 k hk), List.getElem?_set_ne (hk11 k hk)]
      · simp only [hdrLen, List.getD_eq_getElem?_getD, e11, e12,
          if_pos henc, EVP_GCM_TLS_EXPLICIT_IV_LEN, EVP_GCM_TLS_TAG_LEN]
        omega
    · simp only [we_aes_gcm_ctrl_tls1_aad, htake, if_neg hargeq,
        if_pos hptr, if_neg hc1, if_neg hc2, if_neg henc]
      refine ⟨_, rfl, by simp [h13], ?_, ?_⟩
      · intro k hk
        simp [List.getD_eq_getElem?_getD,
          List.getElem?_set_ne (hk12 k hk), List.getElem?_set_ne (hk11 k hk)]
      · simp only [hdrLen, List.getD_eq_getElem?_getD, e11, e12,
          if_neg henc, EVP_GCM_TLS_EXPLICIT_IV_LEN, EVP_GCM_TLS_TAG_LEN]
        omega

/-- Claim C3, witness: encrypt session, header with record length 40; a
call with header length 12 fails, the 13-byte call succeeds returning 16
with the length field rewritten to 32. -/
theorem claim_C3_witness :
    we_aes_gcm_ctrl_tls1_aad (mkSt 0) 12
      [0, 0, 0, 0, 0, 0, 0, 0, 22, 3, 3, 0, 40] = some (0, mkSt 0) ∧
    (∃ aad2,
      we_aes_gcm_ctrl_tls1_aad (mkSt 0) 13
        [0, 0, 0, 0, 0, 0, 0, 0, 22, 3, 3, 0, 40]
        = some (16, { mkSt 0 with aad := aad2, tls := true }) ∧
      aad2.length = 13 ∧
      (∀ k, k < 11 → aad2.getD k 0
        = List.getD [0, 0, 0, 0, 0, 0, 0, 0, 22, 3, 3, 0, 40] k 0) ∧
      hdrLen aad2
        = hdrLen [0, 0, 0, 0, 0, 0, 0, 0, 22, 3, 3, 0, 40] - 8 -
          (if (mkSt 0).enc = true then 0 else 16)) := by
  have h := claim_C3_set_tls_aad (mkSt 0)
    [0, 0, 0, 0, 0, 0, 0, 0, 22, 3, 3, 0, 40] 12 (by decide) (by decide)
  exact ⟨h.1 (by decide), h.2.2.2 (by decide) (Or.inl rfl)⟩

/-- Claim C4, counterexample: an encrypt-direction TLS-record payload call
with the nonzero input length 10 does not write an explicit IV, ciphertext
and 16-byte tag and return 10; it falls into the out-of-bounds branch
(the tag region would start before the output buffer), so the embedding
returns none. -/
theorem claim_C4_counterexample :
    we_aes_gcm_cipher dummyEncPrim dummyDecPrim dummySetExtIv true false
      { mkSt 5 with tls := true, ivSet := true }
      (some (List.replicate 10 0)) (List.replicate 10 3) 10 = none := by
  decide

/-- tlsPayloadLen is plain subtraction for 24 ≤ len < 2^32. -/
lemma tlsPayloadLen_eq (len : Nat) (h24 : 24 ≤ len) (h32 : len < 2 ^ 32) :
    tlsPayloadLen len = len - 24 := by
  unfold tlsPayloadLen word32sub EVP_GCM_TLS_EXPLICIT_IV_LEN
    EVP_GCM_TLS_TAG_LEN
  omega

/-- The size_t-to-int cast is the identity below 2^31. -/
lemma intOfSizeT_eq (n : Nat) (h : n < 2 ^ 31) : intOfSizeT n = (n : Int) := by
  unfold intOfSizeT intOfWord32
  rw [Nat.mod_eq_of_lt (by omega), if_pos h]

/-- Claim C4 as amended: for an encrypt-direction TLS-record session and
any input length len with explicit-IV size + tag size = 24 ≤ len < 2^31
(matching buffers, primitive succeeding with well-formed lengths), the
payload call writes the explicit-IV suffix of the current IV (bytes 4..11)
verbatim into the first 8 output bytes, the ciphertext of the middle
len - 24 bytes after it, a 16-byte tag into the final 16 bytes, and
returns len (ret = (int)len, the identity on this range); a zero-length
call produces no output and returns 0. -/
theorem claim_C4_tls_encrypt (eP : EncPrim) (dP : DecPrim)
    (sI : SetExtIvPrim) (aOk o3 : Bool) (st : WeAesGcm)
    (out0 inp ct tg reg : List Nat) (len : Nat)
    (htls : st.tls = true) (henc : st.enc = true) (hiv : st.iv.length = 16)
    (h24 : 24 ≤ len) (h31 : len < 2 ^ 31)
    (hin : inp.length = len) (hout : out0.length = len)
    (hprim : eP ((inp.drop 8).take (len - 24)) st.iv st.ivLen 16 st.aad
      = some (ct, tg, reg))
    (hct : ct.length = len - 24) (htg : tg.length = 16) :
    we_aes_gcm_cipher eP dP sI aOk o3 st (some out0) inp len
      = some ((len : Int), { st with aad := [] },
              some ((st.iv.drop 4).take 8 ++ ct ++ tg)) ∧
    we_aes_gcm_cipher eP dP sI aOk o3 st (some out0) inp 0
      = some (0, { st with aad := [] }, some out0) := by
  have hE : ((st.iv.drop 4).take 8).length = 8 := by simp [hiv]
  have hEC : ((st.iv.drop 4).take 8 ++ ct).length = len - 16 := by
    simp only [List.length_append, hE, hct]
    omega
  have hmem1 : memcpyAt out0 0 (st.iv.drop EVP_GCM_TLS_FIXED_IV_LEN)
      EVP_GCM_TLS_EXPLICIT_IV_LEN
      = some ((st.iv.drop 4).take 8 ++ out0.drop 8) := by
    rw [memcpyAt, if_pos (⟨by
        simp [EVP_GCM_TLS_EXPLICIT_IV_LEN, EVP_GCM_TLS_FIXED_IV_LEN, hiv],
      by
        simp only [EVP_GCM_TLS_EXPLICIT_IV_LEN, hout]
        omega⟩ : _ ∧ _)]
    simp [EVP_GCM_TLS_FIXED_IV_LEN, EVP_GCM_TLS_EXPLICIT_IV_LEN]
  have hc : EVP_GCM_TLS_EXPLICIT_IV_LEN + tlsPayloadLen len ≤ len ∧
      len ≤ inp.length := by
    rw [tlsPayloadLen_eq len h24 (by omega)]
    simp only [EVP_GCM_TLS_EXPLICIT_IV_LEN]
    omega
  have hprim2 : eP ((inp.drop EVP_GCM_TLS_EXPLICIT_IV_LEN).take
      (tlsPayloadLen len)) st.iv st.ivLen ((EVP_GCM_TLS_TAG_LEN : Nat) : Int)
      st.aad = some (ct, tg, reg) := by
    rw [tlsPayloadLen_eq len h24 (by omega),
        show ((EVP_GCM_TLS_TAG_LEN : Nat) : Int) = (16 : Int) from by
          simp [EVP_GCM_TLS_TAG_LEN]]
    simpa [EVP_GCM_TLS_EXPLICIT_IV_LEN] using hprim
  have hmem2 : memcpyAt ((st.iv.drop 4).take 8 ++ out0.drop 8)
      EVP_GCM_TLS_EXPLICIT_IV_LEN ct (tlsPayloadLen len)
      = some ((st.iv.drop 4).take 8 ++ ct ++ out0.drop (len - 16)) := by
    rw [tlsPayloadLen_eq len h24 (by omega), memcpyAt, if_pos (⟨by omega, by
        simp only [EVP_GCM_TLS_EXPLICIT_IV_LEN, List.length_append, hE,
          List.length_drop, hout]
        omega⟩ : _ ∧ _)]
    simp only [EVP_GCM_TLS_EXPLICIT_IV_LEN]
    rw [List.take_left' hE, List.take_of_length_le (le_of_eq hct),
        show (8 : Nat) + (len - 24) = ((st.iv.drop 4).take 8).length +
          (len - 24) from by rw [hE],
        List.drop_append, List.drop_drop,
        show (8 : Nat) + (len - 24) = len - 16 from by omega]
  have hmem3 : memcpyAt ((st.iv.drop 4).take 8 ++ ct ++ out0.drop (len - 16))
      (len - EVP_GCM_TLS_TAG_LEN) tg EVP_GCM_TLS_TAG_LEN
      = some ((st.iv.drop 4).take 8 ++ ct ++ tg) := by
    have hlenT : ((st.iv.drop 4).take 8 ++ ct ++ out0.drop (len - 16)).length
        = len := by
      simp only [List.length_append, hE, hct, List.length_drop, hout]
      omega
    simp only [EVP_GCM_TLS_TAG_LEN]
    rw [memcpyAt, if_pos (⟨by omega, by rw [hlenT]; omega⟩ : _ ∧ _)]
    rw [List.take_left' hEC, List.take_of_length_le (le_of_eq htg),
        show len - 16 + 16 = len from by omega,
        List.drop_eq_nil_iff.mpr (le_of_eq hlenT), List.append_nil]
  constructor
  · rw [we_aes_gcm_cipher, if_pos htls, we_aes_gcm_tls_cipher,
        we_aes_gcm_tls_crypt, if_pos henc, if_neg (by omega : ¬ len = 0)]
    rw [Option.some_bind, hmem1, Option.some_bind, if_pos hc, hprim2,
        Option.elim_some, hmem2, Option.some_bind, hmem3, Option.some_bind,
        intOfSizeT_eq len (by omega)]
    rfl
  · rw [we_aes_gcm_cipher, if_pos htls, we_aes_gcm_tls_cipher,
        we_aes_gcm_tls_crypt, if_pos henc, if_pos rfl]
    rfl

/-- One iteration of the IvGen loop that stops (no wrap). -/
lemma gcmIncBytes_cons_stop (iv : List Nat) (i : Int) (rest : List Int)
    (h0 : 0 ≤ i) (hlt : i.toNat < iv.length)
    (hnz : (iv.getD i.toNat 0 + 1) % 256 ≠ 0) :
    gcmIncBytes iv (i :: rest)
      = some (iv.set i.toNat ((iv.getD i.toNat 0 + 1) % 256)) := by
  rw [gcmIncBytes, if_pos ⟨h0, hlt⟩, if_pos hnz]

/-- One iteration of the IvGen loop that wraps 0xFF to 0 and continues. -/
lemma gcmIncBytes_cons_wrap (iv : List Nat) (i : Int) (rest : List Int)
    (h0 : 0 ≤ i) (hlt : i.toNat < iv.length)
    (hz : (iv.getD i.toNat 0 + 1) % 256 = 0) :
    gcmIncBytes iv (i :: rest)
      = gcmIncBytes (iv.set i.toNat ((iv.getD i.toNat 0 + 1) % 256)) rest := by
  rw [gcmIncBytes, if_pos ⟨h0, hlt⟩, if_neg (by simpa using hz)]

/-- The loop index sequence for a 12-byte IV. -/
lemma incIndices_12 : incIndices 12 = [11, 10, 9, 8, 7, 6, 5, 4] := by decide

/-- Effect of the IvGen increment loop on a 12-byte IV whose counter is
c < 2^32: the counter becomes c + 1. -/
lemma gcmIncBytes_counter (c : Nat) (hc : c < 2 ^ 32) :
    gcmIncBytes [0, 0, 0, 0, 0, 0, 0, 0, beDigit c 4, beDigit c 5, beDigit c 6, beDigit c 7, 0, 0, 0, 0]
      [11, 10, 9, 8, 7, 6, 5, 4] = some (mkIv (c + 1)) := by
  by_cases h7 : c % 256 = 255
  case neg =>
    have hnz7 : (beDigit c 7 + 1) % 256 ≠ 0 := by
      unfold beDigit; norm_num; omega
    rw [gcmIncBytes_cons_stop [0, 0, 0, 0, 0, 0, 0, 0, beDigit c 4, beDigit c 5, beDigit c 6, beDigit c 7, 0, 0, 0, 0]
        11 [10, 9, 8, 7, 6, 5, 4] (by norm_num) (by norm_num)
        (hnz7 : (beDigit c 7 + 1) % 256 ≠ 0)]
    apply congrArg
    show [0, 0, 0, 0, 0, 0, 0, 0, beDigit c 4, beDigit c 5, beDigit c 6, (beDigit c 7 + 1) % 256, 0, 0, 0, 0] = mkIv (c + 1)
    unfold mkIv beDigit
    norm_num [List.cons.injEq]
    omega
  case pos =>
    have hz7 : (beDigit c 7 + 1) % 256 = 0 := by
      unfold beDigit; norm_num; omega
    by_cases h6 : c / 256 % 256 = 255
    case neg =>
      have hnz6 : (beDigit c 6 + 1) % 256 ≠ 0 := by
        unfold beDigit; norm_num; omega
      rw [gcmIncBytes_cons_wrap [0, 0, 0, 0, 0, 0, 0, 0, beDigit c 4, beDigit c 5, beDigit c 6, beDigit c 7, 0, 0, 0, 0]
          11 [10, 9, 8, 7, 6, 5, 4] (by norm_num) (by norm_num)
          (hz7 : (beDigit c 7 + 1) % 256 = 0)]
      show gcmIncBytes [0, 0, 0, 0, 0, 0, 0, 0, beDigit c 4, beDigit c 5, beDigit c 6, (beDigit c 7 + 1) % 256, 0, 0, 0, 0]
        [10, 9, 8, 7, 6, 5, 4] = some (mkIv (c + 1))
      rw [gcmIncBytes_cons_stop [0, 0, 0, 0, 0, 0, 0, 0, beDigit c 4, beDigit c 5, beDigit c 6, (beDigit c 7 + 1) % 256, 0, 0, 0, 0]
          10 [9, 8, 7, 6, 5, 4] (by norm_num) (by norm_num)
          (hnz6 : (beDigit c 6 + 1) % 256 ≠ 0)]
      apply congrArg
      show [0, 0, 0, 0, 0, 0, 0, 0, beDigit c 4, beDigit c 5, (beDigit c 6 + 1) % 256, (beDigit c 7 + 1) % 256, 0, 0, 0, 0] = mkIv (c + 1)
      unfold mkIv beDigit
      norm_num [List.cons.injEq]
      omega
    case pos =>
      have hz6 : (beDigit c 6 + 1) % 256 = 0 := by
        unfold beDigit; norm_num; omega
      by_cases h5 : c / 65536 % 256 = 255
      case neg =>
        have hnz5 : (beDigit c 5 + 1) % 256 ≠ 0 := by
          unfold beDigit; norm_num; omega
        rw [gcmIncBytes_cons_wrap [0, 0, 0, 0, 0, 0, 0, 0, beDigit c 4, beDigit c 5, beDigit c 6, beDigit c 7, 0, 0, 0, 0]
            11 [10, 9, 8, 7, 6, 5, 4] (by norm_num) (by norm_num)
            (hz7 : (beDigit c 7 + 1) % 256 = 0)]
        show gcmIncBytes [0, 0, 0, 0, 0, 0, 0, 0, beDigit c 4, beDigit c 5, beDigit c 6, (beDigit c 7 + 1) % 256, 0, 0, 0, 0]
          [10, 9, 8, 7, 6, 5, 4] = some (mkIv (c + 1))
        rw [gcmIncBytes_cons_wrap [0, 0, 0, 0, 0, 0, 0, 0, beDigit c 4, beDigit c 5, beDigit c 6, (beDigit c 7 + 1) % 256, 0, 0, 0, 0]
            10 [9, 8, 7, 6, 5, 4] (by norm_num) (by norm_num)
            (hz6 : (beDigit c 6 + 1) % 256 = 0)]
        show gcmIncBytes [0, 0, 0, 0, 0, 0, 0, 0, beDigit c 4, beDigit c 5, (beDigit c 6 + 1) % 256, (beDigit c 7 + 1) % 256, 0, 0, 0, 0]
          [9, 8, 7, 6, 5, 4] = some (mkIv (c + 1))
        rw [gcmIncBytes_cons_stop [0, 0, 0, 0, 0, 0, 0, 0, beDigit c 4, beDigit c 5, (beDigit c 6 + 1) % 256, (beDigit c 7 + 1) % 256, 0, 0, 0, 0]
            9 [8, 7, 6, 5, 4] (by norm_num) (by norm_num)
            (hnz5 : (beDigit c 5 + 1) % 256 ≠ 0)]
        apply congrArg
        show [0, 0, 0, 0, 0, 0, 0, 0, beDigit c 4, (beDigit c 5 + 1) % 256, (beDigit c 6 + 1) % 256, (beDigit c 7 + 1) % 256, 0, 0, 0, 0] = mkIv (c + 1)
        unfold mkIv beDigit
        norm_num [List.cons.injEq]
        omega
      case pos =>
        have hz5 : (beDigit c 5 + 1) % 256 = 0 := by
          unfold beDigit; norm_num; omega
        by_cases h4 : c / 16777216 % 256 = 255
        case neg =>
          have hnz4 : (beDigit c 4 + 1) % 256 ≠ 0 := by
            unfold beDigit; norm_num; omega
          rw [gcmIncBytes_cons_wrap [0, 0, 0, 0, 0, 0, 0, 0, beDigit c 4, beDigit c 5, beDigit c 6, beDigit c 7, 0, 0, 0, 0]
              11 [10, 9, 8, 7, 6, 5, 4] (by norm_num) (by norm_num)
              (hz7 : (beDigit c 7 + 1) % 256 = 0)]
          show gcmIncBytes [0, 0, 0, 0, 0, 0, 0, 0, beDigit c 4, beDigit c 5, beDigit c 6, (beDigit c 7 + 1) % 256, 0, 0, 0, 0]
            [10, 9, 8, 7, 6, 5, 4] = some (mkIv (c + 1))
          rw [gcmIncBytes_cons_wrap [0, 0, 0, 0, 0, 0, 0, 0, beDigit c 4, beDigit c 5, beDigit c 6, (beDigit c 7 + 1) % 256, 0, 0, 0, 0]
              10 [9, 8, 7, 6, 5, 4] (by norm_num) (by norm_num)
              (hz6 : (beDigit c 6 + 1) % 256 = 0)]
          show gcmIncBytes [0, 0, 0, 0, 0, 0, 0, 0, beDigit c 4, beDigit c 5, (beDigit c 6 + 1) % 256, (beDigit c 7 + 1) % 256, 0, 0, 0, 0]
            [9, 8, 7, 6, 5, 4] = some (mkIv (c + 1))
          rw [gcmIncBytes_cons_wrap [0, 0, 0, 0, 0, 0, 0, 0, beDigit c 4, beDigit c 5, (beDigit c 6 + 1) % 256, (beDigit c 7 + 1) % 256, 0, 0, 0, 0]
              9 [8, 7, 6, 5, 4] (by norm_num) (by norm_num)
              (hz5 : (beDigit c 5 + 1) % 256 = 0)]
          show gcmIncBytes [0, 0, 0, 0, 0, 0, 0, 0, beDigit c 4, (beDigit c 5 + 1) % 256, (beDigit c 6 + 1) % 256, (beDigit c 7 + 1) % 256, 0, 0, 0, 0]
            [8, 7, 6, 5, 4] = some (mkIv (c + 1))
          rw [gcmIncBytes_cons_stop [0, 0, 0, 0, 0, 0, 0, 0, beDigit c 4, (beDigit c 5 + 1) % 256, (beDigit c 6 + 1) % 256, (beDigit c 7 + 1) % 256, 0, 0, 0, 0]
              8 [7, 6, 5, 4] (by norm_num) (by norm_num)
              (hnz4 : (beDigit c 4 + 1) % 256 ≠ 0)]
          apply congrArg
          show [0, 0, 0, 0, 0, 0, 0, 0, (beDigit c 4 + 1) % 256, (beDigit c 5 + 1) % 256, (beDigit c 6 + 1) % 256, (beDigit c 7 + 1) % 256, 0, 0, 0, 0] = mkIv (c + 1)
          unfold mkIv beDigit
          norm_num [List.cons.injEq]
          omega
        case pos =>
          have hcval : c = 4294967295 := by omega
          subst hcval
          decide

/-- The seed copy of an IvGen call with the zero 8-byte seed. -/
lemma ivgen_zero_copy (c : Nat) :
    memcpyAt (mkSt c).iv 0 [0, 0, 0, 0, 0, 0, 0, 0] (Int.toNat 8)
      = some [0, 0, 0, 0, 0, 0, 0, 0,
              beDigit c 4, beDigit c 5, beDigit c 6, beDigit c 7,
              0, 0, 0, 0] := rfl

/-- One zero-seeded IvGen call on a 12-byte IV with counter c < 2^32 yields
counter c + 1 (the seed copy zeroes bytes 0-7, which for c < 2^32 are
already zero). -/
lemma ivGenZeroStep_mkSt (c : Nat) (hc : c < 2 ^ 32) :
    ivGenZeroStep (mkSt c) = mkSt (c + 1) := by
  have hgen : we_aes_gcm_ctrl_iv_gen (mkSt c) 8 [0, 0, 0, 0, 0, 0, 0, 0]
      = some (1, { mkSt c with iv := mkIv (c + 1) }) := by
    rw [we_aes_gcm_ctrl_iv_gen,
        if_neg (by norm_num [GCM_NONCE_MAX_SZ])]
    rw [ivgen_zero_copy c]
    simp only []
    rw [show (mkSt c).ivLen = 12 from rfl, incIndices_12,
        gcmIncBytes_counter c hc]
  unfold ivGenZeroStep
  rw [hgen]
  rfl

/-- Iterating the zero-seeded IvGen call from the all-zero state. -/
lemma iterate_ivGenZeroStep : ∀ n : Nat, n ≤ 2 ^ 32 →
    (ivGenZeroStep)^[n] (mkSt 0) = mkSt n := by
  intro n
  induction n with
  | zero => intro _; rfl
  | succ k ih =>
    intro h
    rw [Function.iterate_succ_apply', ih (by omega),
        ivGenZeroStep_mkSt k (by omega)]

/-- Recomposition of the low-8-byte counter. -/
lemma ivCtr_mkIv (c : Nat) (h : c < 2 ^ 64) : ivCtr (mkIv c) = c := by
  show beDigit c 0 * 72057594037927936 + beDigit c 1 * 281474976710656 +
      beDigit c 2 * 1099511627776 + beDigit c 3 * 4294967296 +
      beDigit c 4 * 16777216 + beDigit c 5 * 65536 +
      beDigit c 6 * 256 + beDigit c 7 = c
  unfold beDigit
  norm_num
  omega

/-- Claim C2, counterexample: at the 2^32-th successive zero-seeded IvGen
call the low-8-byte counter does not increase by 1: the seed copy zeroes
byte iv_len - 8, destroying the carry, and the counter falls from 2^32
back to 1. -/
theorem claim_C2_counterexample :
    ivCtr (((ivGenZeroStep)^[2 ^ 32 + 1]) (mkSt 0)).iv
      ≠ ivCtr (((ivGenZeroStep)^[2 ^ 32]) (mkSt 0)).iv + 1 := by
  have h1 : (ivGenZeroStep)^[2 ^ 32] (mkSt 0) = mkSt (2 ^ 32) :=
    iterate_ivGenZeroStep (2 ^ 32) le_rfl
  have h2 : ivGenZeroStep (mkSt (2 ^ 32)) = mkSt 1 := by decide
  rw [Function.iterate_succ_apply', h1, h2]
  decide

/-- Claim C2 as amended: starting from the all-zero seed with iv_len = 12,
each of the first 2^32 successive zero-seeded IvGen calls increases the
low-8-byte big-endian counter by exactly 1 (byte-wise carry on 0xFF);
from call 2^32 + 1 on, the zero seed copy overwrites the carried byte and
the counter restarts, so the bound is sharp. -/
theorem claim_C2_nonce_increment (n : Nat) (h : n < 2 ^ 32) :
    ivCtr (((ivGenZeroStep)^[n + 1]) (mkSt 0)).iv
      = ivCtr (((ivGenZeroStep)^[n]) (mkSt 0)).iv + 1 := by
  rw [iterate_ivGenZeroStep (n + 1) (by omega),
      iterate_ivGenZeroStep n (by omega),
      show (mkSt (n + 1)).iv = mkIv (n + 1) from rfl,
      show (mkSt n).iv = mkIv n from rfl,
      ivCtr_mkIv (n + 1) (by omega), ivCtr_mkIv n (by omega)]

/-- Claim C2, witness for the amended theorem: the fourth call. -/
theorem claim_C2_witness :
    (3 < 2 ^ 32) ∧
    ivCtr (((ivGenZeroStep)^[3 + 1]) (mkSt 0)).iv
      = ivCtr (((ivGenZeroStep)^[3]) (mkSt 0)).iv + 1 :=
  ⟨by norm_num, claim_C2_nonce_increment 3 (by norm_num)⟩

/-- Claim C4, witness for the amended theorem: len = 24 (empty middle). -/
theorem claim_C4_witness :
    we_aes_gcm_cipher dummyEncPrim dummyDecPrim dummySetExtIv true false
      { mkSt 5 with tls := true } (some (List.replicate 24 0))
      (List.replicate 24 3) 24
      = some ((24 : Int), { mkSt 5 with tls := true, aad := [] },
              some ((({ mkSt 5 with tls := true } : WeAesGcm).iv.drop 4).take 8
                    ++ [] ++ List.replicate 16 0)) ∧
    we_aes_gcm_cipher dummyEncPrim dummyDecPrim dummySetExtIv true false
      { mkSt 5 with tls := true } (some (List.replicate 24 0))
      (List.replicate 24 3) 0
      = some (0, { mkSt 5 with tls := true, aad := [] },
              some (List.replicate 24 0)) :=
  claim_C4_tls_encrypt dummyEncPrim dummyDecPrim dummySetExtIv true false
    { mkSt 5 with tls := true } (List.replicate 24 0) (List.replicate 24 3)
    [] (List.replicate 16 0) (List.replicate 16 2) 24 rfl rfl (by decide)
    (by decide) (by decide) (by decide) (by decide) (by decide) (by decide)
    (by decide)
